import Mathlib

set_option linter.unusedVariables false

/-!
# Verification of the novax transaction-execution layer

Shallow embedding of `src/executor/src/network/transaction/executor.rs` and
`src/executor/src/dummy/transaction.rs`, together with theorems settling the
frozen claims about smart-contract-result discovery and decoding, the network
`sc_call` pipeline, and the dummy (capture-only) executor.

Rust panics (`expect`, `assert_eq!`, `todo!`) are modelled explicitly by the
`PanicOr` type so that aborts are distinguishable from returned error values.
Byte strings are `List Nat`, arbitrary-precision amounts are `Nat`.
-/

/-- An account identifier (novax_data::Address); 32 raw bytes in the source,
modelled as a list of byte values. -/
structure Address where
  bytes : List Nat
deriving DecidableEq, Repr

/-- The all-zero default address (`multiversx_sc::types::Address::default`). -/
def Address.zero : Address := ⟨List.replicate 32 0⟩

/-- crate::utils::transaction::token_transfer::TokenTransfer: one token-payment
leg attached to a call. -/
structure TokenTransfer where
  identifier : String
  nonce : Nat
  amount : Nat
deriving DecidableEq, Repr

/-- crate::network::utils::wallet::Wallet, reduced to the only capability the
executor uses: producing the signer address. -/
structure Wallet where
  address : Address
deriving DecidableEq, Repr

/-- TransactionOnNetworkTransactionSmartContractResult: one smart-contract
result record, with the nonce and data fields the decoder inspects. -/
structure SCR where
  nonce : Nat
  data : String
deriving DecidableEq, Repr

/-- The `transaction` field of a finalized TransactionOnNetwork: carries the
optional list of smart-contract results. -/
structure TransactionOnNetworkTransaction where
  smartContractResults : Option (List SCR)
deriving DecidableEq, Repr

/-- TransactionOnNetwork: the network view of a finalized transaction. -/
structure TransactionOnNetwork where
  transaction : TransactionOnNetworkTransaction
deriving DecidableEq, Repr

/-- crate::call_result::CallResult: the finalized response plus an optional
decoded native value. -/
structure CallResult (α : Type) where
  response : TransactionOnNetwork
  result : Option α
deriving DecidableEq

/-- crate::error::transaction::TransactionError, restricted to the variants
used by `sc_call` in the source file. -/
inductive TransactionError where
  | noSmartContractResult
  | cannotDecodeSmartContractResult
deriving DecidableEq, Repr

/-- Modelled from the spec: crate::error::executor::ExecutorError (its
definition file is not under src/); the spec lists the error kinds
interactor-construction failure, normalization failure, network failure and
transaction-level errors, all surfaced as one tagged error type. -/
inductive ExecutorError where
  | interactorConstruction (msg : String)
  | normalization (msg : String)
  | networkQuery (msg : String)
  | transaction (e : TransactionError)
deriving DecidableEq, Repr

/-- Outcome of running Rust code that may panic: either an uncaught abort with
a message, or a normally returned value. -/
inductive PanicOr (α : Type) where
  | panic (msg : String)
  | ok (v : α)
deriving DecidableEq, Repr

/-- Value of one hexadecimal digit character, `none` for a non-hex character
(mirrors the per-character check of Rust hex::decode). -/
def hexDigitVal (c : Char) : Option Nat :=
  let n := c.toNat
  if 48 ≤ n ∧ n ≤ 57 then some (n - 48)
  else if 97 ≤ n ∧ n ≤ 102 then some (n - 87)
  else if 65 ≤ n ∧ n ≤ 70 then some (n - 55)
  else none

/-- Hex-decode a character list two digits at a time; odd length or a non-hex
character yields `none` (mirrors Rust hex::decode's failure conditions). -/
def hexDecodeChars : List Char → Option (List Nat)
  | [] => some []
  | [_] => none
  | hi :: lo :: rest => do
    let h ← hexDigitVal hi
    let l ← hexDigitVal lo
    let r ← hexDecodeChars rest
    pure ((h * 16 + l) :: r)

/-- Rust `hex::decode` on a string: bytes on success, `none` on invalid hex. -/
def hexDecode (s : String) : Option (List Nat) :=
  hexDecodeChars s.data

/-- Rust `str::split('@')` specialised to the separator the wire format uses:
splits into the (possibly empty) fields between occurrences of `@`. -/
def splitDataOnAt (s : String) : List String :=
  go s.data []
where
  /-- Accumulator-based splitter over the character list. -/
  go : List Char → List Char → List String
    | [], acc => [String.mk acc.reverse]
    | c :: rest, acc =>
      if c = '@' then String.mk acc.reverse :: go rest [] else go rest (c :: acc)

/-- Rust `str::starts_with('@')`: the first character is `@`. -/
def dataStartsWithAtSign (s : String) : Bool :=
  match s.data with
  | [] => false
  | c :: _ => c = '@'

/-- The selection predicate of `find_smart_contract_result`: a result record
carries VM return data when its nonce is nonzero and its data begins with
`@`. -/
def isReturnDataCarrier (r : SCR) : Bool :=
  decide (r.nonce ≠ 0) && dataStartsWithAtSign r.data

/-- `find_smart_contract_result` (network/transaction/executor.rs:194-212):
scans the optional result list for the first return-data carrier, then splits
its data on `@`, discards the leading empty field, checks the status field
against the literal "6f6b" with `assert_eq!` (a panic on mismatch), and
hex-decodes every remaining field with `expect` (a panic on invalid hex). -/
def findSmartContractResult (optScResults : Option (List SCR)) :
    PanicOr (Option (List (List Nat))) :=
  match optScResults with
  | none => PanicOr.ok none
  | some scResults =>
    match scResults.find? isReturnDataCarrier with
    | none => PanicOr.ok none
    | some scResult =>
      match splitDataOnAt scResult.data with
      | [] => PanicOr.panic "SCR data should start with at-sign"
      | [_] => PanicOr.panic "missing result code"
      | _ :: resultCode :: rest =>
        if resultCode = "6f6b" then
          match rest.mapM hexDecode with
          | some decodedArgs => PanicOr.ok (some decodedArgs)
          | none => PanicOr.panic "error hex-decoding result"
        else
          PanicOr.panic "result code is not ok"

/-- The part of the sender/receiver/payload data the normalization step
produces (NormalizedTransaction in utils/transaction/normalization.rs, not
under src/); `sc_call` only reads these three fields before submitting. -/
structure NormalizedTransaction where
  receiver : String
  egld_value : Nat
  transaction_data : String
deriving DecidableEq, Repr

/-- A network round-trip performed by `sc_call`: opening the interactor
session against the gateway (`Interactor::new`, which per the spec may fail
with a connection error), and submitting the signed call
(`interactor.sc_call`). -/
inductive NetworkEvent where
  | openSession
  | submitCall
deriving DecidableEq, Repr

/-- Outcome of one `sc_call` invocation: an uncaught abort, a returned
`ExecutorError`, or a decoded `CallResult`. -/
inductive ScCallOutcome (α : Type) where
  | panic (msg : String)
  | err (e : ExecutorError)
  | success (c : CallResult α)
deriving DecidableEq

/-- The capabilities `sc_call` composes, abstracted at the boundaries the
source delegates to external modules: the result of `Interactor::new`, the
result of normalizing this invocation's inputs (`NormalizationInOut
normalize`, not under src/), the interactor's `sc_call` submission, and the
typed multi-decode composed with `to_native` (`OutputManaged::multi_decode`,
external codec), which fails with `none` on a shape mismatch. -/
structure ScCallEnv (α : Type) where
  interactorNew : Except ExecutorError Unit
  normalize : Except ExecutorError NormalizedTransaction
  submitScCall : NormalizedTransaction → Nat → Except ExecutorError TransactionOnNetwork
  gasLimit : Nat
  multiDecodeToNative : List (List Nat) → Option α

/-- `BaseTransactionNetworkExecutor::sc_call`
(network/transaction/executor.rs:97-151), with the network round-trips it
performed recorded in order as a trace. The source's order is: create the
interactor (session open, a network operation), then normalize, then submit,
then locate and decode the smart-contract result. Every `?` early return
becomes an `err` outcome; panics inside `find_smart_contract_result`
propagate as `panic`. -/
def scCall {α : Type} (env : ScCallEnv α) :
    List NetworkEvent × ScCallOutcome α :=
  match env.interactorNew with
  | Except.error e => ([NetworkEvent.openSession], ScCallOutcome.err e)
  | Except.ok _ =>
    match env.normalize with
    | Except.error e => ([NetworkEvent.openSession], ScCallOutcome.err e)
    | Except.ok normalized =>
      match env.submitScCall normalized env.gasLimit with
      | Except.error e =>
        ([NetworkEvent.openSession, NetworkEvent.submitCall], ScCallOutcome.err e)
      | Except.ok result =>
        let trace := [NetworkEvent.openSession, NetworkEvent.submitCall]
        match findSmartContractResult result.transaction.smartContractResults with
        | PanicOr.panic msg => (trace, ScCallOutcome.panic msg)
        | PanicOr.ok none =>
          (trace, ScCallOutcome.err
            (ExecutorError.transaction TransactionError.noSmartContractResult))
        | PanicOr.ok (some scResult) =>
          match env.multiDecodeToNative scResult with
          | none =>
            (trace, ScCallOutcome.err
              (ExecutorError.transaction TransactionError.cannotDecodeSmartContractResult))
          | some nativeResult =>
            (trace, ScCallOutcome.success
              { response := result, result := some nativeResult })

/-- The network executor struct (the phantom interactor parameter carries no
state and is dropped). -/
structure BaseTransactionNetworkExecutor where
  gateway_url : String
  wallet : Wallet
deriving DecidableEq, Repr

/-- `DeployExecutor::should_skip_deserialization` for the network executor
(network/transaction/executor.rs:189-191): always false. -/
def BaseTransactionNetworkExecutor.shouldSkipDeserializationDeploy
    (self : BaseTransactionNetworkExecutor) : Bool :=
  false

/-- Modelled from the spec: `TransactionExecutor::should_skip_deserialization`
for the network executor.  The TransactionExecutor trait and the network
call-path override live in files not under src/; the spec states the value is
false for the network executor's call path, for all configurations. -/
def BaseTransactionNetworkExecutor.shouldSkipDeserializationCall
    (self : BaseTransactionNetworkExecutor) : Bool :=
  false

/-- multiversx ScCallStep, reduced to the fields the dummy executor
manipulates: the tx.from sender address plus an opaque stand-in for the
remaining captured content. -/
structure ScCallStep where
  txFrom : Address
  payload : String
deriving DecidableEq, Repr

/-- `ScCallStep::new()` / the default step: zero sender, empty content. -/
def ScCallStep.new : ScCallStep :=
  { txFrom := Address.zero, payload := "" }

/-- multiversx ScDeployStep, reduced likewise to the sender field plus an
opaque stand-in for the remaining captured content (code, args, gas, ...). -/
structure ScDeployStep where
  txFrom : Address
  payload : String
deriving DecidableEq, Repr

/-- `ScDeployStep::new()` / the default step. -/
def ScDeployStep.new : ScDeployStep :=
  { txFrom := Address.zero, payload := "" }

/-- The `.from(address)` builder: stamps the step's sender. -/
def ScDeployStep.withFrom (step : ScDeployStep) (addr : Address) : ScDeployStep :=
  { step with txFrom := addr }

/-- TypedScDeploy<OriginalResult>: a phantom-typed wrapper around an
ScDeployStep (the `sc_deploy_step` field). -/
structure TypedScDeploy where
  sc_deploy_step : ScDeployStep
deriving DecidableEq, Repr

/-- `ScDeployStep::new().into()`: the default typed wrapper. -/
def TypedScDeploy.fromStep (s : ScDeployStep) : TypedScDeploy :=
  ⟨s⟩

/-- The `.from(address)` builder lifted to the typed wrapper, as used on the
owned step inside the dummy `sc_deploy`. -/
def TypedScDeploy.withFrom (t : TypedScDeploy) (addr : Address) : TypedScDeploy :=
  ⟨t.sc_deploy_step.withFrom addr⟩

/-- DummyExecutor<Tx> (dummy/transaction.rs:24-29): the last captured step and
the optional caller override. -/
structure DummyExecutor (Tx : Type) where
  tx : Tx
  caller : Option Address
deriving DecidableEq

/-- `DummyExecutor<ScCallStep>::sc_call` (dummy/transaction.rs:55-81): the
body is `todo!()` — it aborts with the unimplemented panic, performing no
capture (the intended capture logic is present only as a commented-out
block). State-passing signature: would return the updated executor on a
normal return. -/
def DummyExecutor.scCall (self : DummyExecutor ScCallStep) (toAddr : Address)
    (function : String) (arguments : List (List Nat)) (gasLimit : Nat)
    (egldValue : Nat) (esdtTransfers : List TokenTransfer) :
    PanicOr (DummyExecutor ScCallStep × Except ExecutorError Unit) :=
  PanicOr.panic "not yet implemented"

/-- `DummyExecutor<ScCallStep>::should_skip_deserialization`
(dummy/transaction.rs:84-86): always true. -/
def DummyExecutor.shouldSkipDeserializationScCall
    (self : DummyExecutor ScCallStep) : Bool :=
  true

/-- `DummyExecutor<ScDeployStep>::sc_deploy` (dummy/transaction.rs:92-105).
`mem::replace` moves the caller's step out and leaves a default-constructed
one in its place; when a caller override is configured the owned step is
re-stamped with it via `.from`; the inner ScDeployStep is stored as the
captured tx.  Returns (updated executor, what the caller's handle now holds,
the Ok result). -/
def DummyExecutor.scDeploy (self : DummyExecutor ScDeployStep)
    (sc_deploy_step : TypedScDeploy) :
    DummyExecutor ScDeployStep × TypedScDeploy × Except ExecutorError Unit :=
  let owned_sc_deploy_step := sc_deploy_step
  let replaced := TypedScDeploy.fromStep ScDeployStep.new
  let owned_sc_deploy_step :=
    match self.caller with
    | some caller => owned_sc_deploy_step.withFrom caller
    | none => owned_sc_deploy_step
  ({ self with tx := owned_sc_deploy_step.sc_deploy_step }, replaced, Except.ok ())

/-- `DummyExecutor<ScDeployStep>::should_skip_deserialization`
(dummy/transaction.rs:108-110): always true. -/
def DummyExecutor.shouldSkipDeserializationScDeploy
    (self : DummyExecutor ScDeployStep) : Bool :=
  true

/-! ## Concrete pipeline fixtures -/

/-- Shared test fixture: a normalized transaction for concrete pipeline
runs. -/
def testNormalized : NormalizedTransaction :=
  { receiver := "erd1receiver", egld_value := 0, transaction_data := "myFunction" }

/-- Concrete environment in which the only return-data carrier reports the
non-success status `756e6b6e6f776e` ("unknown"). -/
def envVmFailure : ScCallEnv Unit :=
  { interactorNew := Except.ok ()
  , normalize := Except.ok testNormalized
  , submitScCall := fun _ _ => Except.ok ⟨⟨some [⟨1, "@756e6b6e6f776e"⟩]⟩⟩
  , gasLimit := 600000000
  , multiDecodeToNative := fun _ => some () }

/-- Concrete environment whose finalized transaction has an absent
smart-contract-result list. -/
def envNoResult : ScCallEnv Unit :=
  { interactorNew := Except.ok ()
  , normalize := Except.ok testNormalized
  , submitScCall := fun _ _ => Except.ok ⟨⟨none⟩⟩
  , gasLimit := 600000000
  , multiDecodeToNative := fun _ => some () }

/-- Concrete environment with a well-formed successful smart-contract result
but a typed decoder that rejects every argument list. -/
def envDecodeFailure : ScCallEnv Unit :=
  { interactorNew := Except.ok ()
  , normalize := Except.ok testNormalized
  , submitScCall := fun _ _ => Except.ok ⟨⟨some [⟨7, "@6f6b@2a"⟩]⟩⟩
  , gasLimit := 600000000
  , multiDecodeToNative := fun _ => none }

/-- Concrete environment in which every stage succeeds and the decoder
accepts the raw arguments. -/
def envSuccess : ScCallEnv Nat :=
  { interactorNew := Except.ok ()
  , normalize := Except.ok testNormalized
  , submitScCall := fun _ _ => Except.ok ⟨⟨some [⟨7, "@6f6b@2a"⟩]⟩⟩
  , gasLimit := 600000000
  , multiDecodeToNative := fun args => (args.head?.bind List.head?) }

/-- Concrete environment in which normalization fails while the interactor
session opens successfully; the submission closure is never reached. -/
def envNormalizationFailure : ScCallEnv Unit :=
  { interactorNew := Except.ok ()
  , normalize := Except.error (ExecutorError.normalization "malformed address")
  , submitScCall := fun _ _ => Except.error (ExecutorError.networkQuery "not reached")
  , gasLimit := 600000000
  , multiDecodeToNative := fun _ => none }

/-! ## Claim theorems -/

/-- C1: the claim says a non-success status code makes `sc_call` fail with
the VM-reported-non-success error *returned as an error value* (no uncaught
abort).  Evaluating the code at such an input shows the source instead aborts
through `assert_eq!(result_code, "6f6b")` — an uncaught panic, not a returned
`ExecutorError` — before any typed decode is attempted (the source's own TODO
on that line says the expects/asserts should go). -/
theorem sc_call_non_success_status_aborts :
    (scCall envVmFailure).2 = ScCallOutcome.panic "result code is not ok" := by
  rfl

/-- C2: the decoder selects the first smart-contract result with nonzero
nonce and `@`-prefixed data and returns the hex-decoded fields after the
status code as the raw return arguments; in particular, on
`[{nonce:0, data:"@6f6b"}, {nonce:7, data:"@6f6b@2a"}]` it selects the
nonce-7 entry and returns the single raw argument `[0x2a]`. -/
theorem find_smart_contract_result_selects_first_carrier
    (scrs : List SCR) (r : SCR) (args : List (List Nat))
    (hfind : scrs.find? isReturnDataCarrier = some r)
    (hstatus : (splitDataOnAt r.data).get? 1 = some "6f6b")
    (hdec : ((splitDataOnAt r.data).drop 2).mapM hexDecode = some args) :
    findSmartContractResult (some scrs) = PanicOr.ok (some args) ∧
    findSmartContractResult (some [⟨0, "@6f6b"⟩, ⟨7, "@6f6b@2a"⟩])
        = PanicOr.ok (some [[42]]) := by
  refine ⟨?_, by decide⟩
  simp only [findSmartContractResult, hfind]
  rcases h : splitDataOnAt r.data with _ | ⟨a, _ | ⟨b, rest⟩⟩
  · rw [h] at hstatus; simp at hstatus
  · rw [h] at hstatus; simp at hstatus
  · rw [h] at hstatus hdec
    simp at hstatus
    subst hstatus
    simp at hdec
    simp [hdec]

/-- Witness for C2 at the concrete result list of the claim. -/
theorem find_smart_contract_result_selects_first_carrier_witness :
    findSmartContractResult (some [⟨0, "@6f6b"⟩, ⟨7, "@6f6b@2a"⟩])
        = PanicOr.ok (some [[42]]) :=
  (find_smart_contract_result_selects_first_carrier
    [⟨0, "@6f6b"⟩, ⟨7, "@6f6b@2a"⟩] ⟨7, "@6f6b@2a"⟩ [[42]]
    (by decide) (by decide) (by decide)).1

/-- C5: the claim says an invalid-hex field after the status code causes a
decode error *returned to the caller*.  Evaluating the code on a carrier
whose argument field `zz` is not hex shows the source instead aborts through
`expect("error hex-decoding result")` — an uncaught panic, not a returned
error value. -/
theorem hex_decode_failure_aborts :
    findSmartContractResult (some [⟨1, "@6f6b@zz"⟩])
        = PanicOr.panic "error hex-decoding result" := by
  decide

/-- C3: when the finalized transaction carries no smart-contract result with
nonzero nonce and `@`-prefixed data — including an absent or empty list —
`sc_call` returns the no-smart-contract-result error, an error value distinct
from the decode-error kind (and, being a returned `err`, distinct from the
abort the status check produces). -/
theorem sc_call_no_result_error {α : Type} (env : ScCallEnv α)
    (n : NormalizedTransaction) (txr : TransactionOnNetwork)
    (h1 : env.interactorNew = Except.ok ())
    (h2 : env.normalize = Except.ok n)
    (h3 : env.submitScCall n env.gasLimit = Except.ok txr)
    (h4 : (txr.transaction.smartContractResults.getD []).find? isReturnDataCarrier
        = none) :
    (scCall env).2 = ScCallOutcome.err
        (ExecutorError.transaction TransactionError.noSmartContractResult) ∧
    TransactionError.noSmartContractResult
        ≠ TransactionError.cannotDecodeSmartContractResult := by
  refine ⟨?_, by decide⟩
  have hfind : findSmartContractResult txr.transaction.smartContractResults
      = PanicOr.ok none := by
    rcases hopt : txr.transaction.smartContractResults with _ | l
    · rfl
    · rw [hopt] at h4
      simp only [Option.getD] at h4
      simp only [findSmartContractResult, h4]
  simp only [scCall, h1, h2, h3, hfind]

/-- Witness for C3 at a transaction with an absent result list. -/
theorem sc_call_no_result_error_witness :
    (scCall envNoResult).2 = ScCallOutcome.err
        (ExecutorError.transaction TransactionError.noSmartContractResult) ∧
    TransactionError.noSmartContractResult
        ≠ TransactionError.cannotDecodeSmartContractResult :=
  sc_call_no_result_error envNoResult testNormalized ⟨⟨none⟩⟩ rfl rfl rfl (by decide)

/-- C4: when a smart-contract result was located and passed the status check
but its raw argument list fails the typed multi-decode, `sc_call` returns the
cannot-decode-smart-contract-result error — an error value, hence an outcome
distinct from any abort (in particular from the status-check panic). -/
theorem sc_call_decode_error {α : Type} (env : ScCallEnv α)
    (n : NormalizedTransaction) (txr : TransactionOnNetwork)
    (args : List (List Nat))
    (h1 : env.interactorNew = Except.ok ())
    (h2 : env.normalize = Except.ok n)
    (h3 : env.submitScCall n env.gasLimit = Except.ok txr)
    (h4 : findSmartContractResult txr.transaction.smartContractResults
        = PanicOr.ok (some args))
    (h5 : env.multiDecodeToNative args = none) :
    (scCall env).2 = ScCallOutcome.err
        (ExecutorError.transaction TransactionError.cannotDecodeSmartContractResult) ∧
    ∀ msg : String, (scCall env).2 ≠ ScCallOutcome.panic msg := by
  have hmain : (scCall env).2 = ScCallOutcome.err
      (ExecutorError.transaction TransactionError.cannotDecodeSmartContractResult) := by
    simp only [scCall, h1, h2, h3, h4, h5]
  refine ⟨hmain, fun msg hcontra => ?_⟩
  rw [hmain] at hcontra
  exact ScCallOutcome.noConfusion hcontra

/-- Witness for C4 at a result list whose single carrier decodes to `[0x2a]`
while the typed decoder fails. -/
theorem sc_call_decode_error_witness :
    (scCall envDecodeFailure).2 = ScCallOutcome.err
        (ExecutorError.transaction TransactionError.cannotDecodeSmartContractResult) ∧
    ∀ msg : String, (scCall envDecodeFailure).2 ≠ ScCallOutcome.panic msg :=
  sc_call_decode_error envDecodeFailure testNormalized ⟨⟨some [⟨7, "@6f6b@2a"⟩]⟩⟩
    [[42]] rfl rfl rfl (by decide) rfl

/-- C6: on the network path, whenever the typed decode succeeds `sc_call`
returns `CallResult{response := the finalized transaction, result := some
native}`; moreover no successful network outcome ever carries `result =
none` (absence of a decoded value happens only where deserialization is
skipped, i.e. the dummy path). -/
theorem sc_call_success_result_is_some {α : Type} (env : ScCallEnv α)
    (n : NormalizedTransaction) (txr : TransactionOnNetwork)
    (args : List (List Nat)) (native : α)
    (h1 : env.interactorNew = Except.ok ())
    (h2 : env.normalize = Except.ok n)
    (h3 : env.submitScCall n env.gasLimit = Except.ok txr)
    (h4 : findSmartContractResult txr.transaction.smartContractResults
        = PanicOr.ok (some args))
    (h5 : env.multiDecodeToNative args = some native) :
    (scCall env).2 = ScCallOutcome.success { response := txr, result := some native } ∧
    ∀ (env2 : ScCallEnv α) (c : CallResult α),
      (scCall env2).2 = ScCallOutcome.success c → c.result.isSome = true := by
  constructor
  · simp only [scCall, h1, h2, h3, h4, h5]
  · intro env2 c h
    rcases c with ⟨resp, res⟩
    unfold scCall at h
    rcases hi : env2.interactorNew with e | u
    · simp [hi] at h
    · simp only [hi] at h
      rcases hn : env2.normalize with e | norm
      · simp [hn] at h
      · simp only [hn] at h
        rcases hs : env2.submitScCall norm env2.gasLimit with e | txr2
        · simp [hs] at h
        · simp only [hs] at h
          rcases hf : findSmartContractResult txr2.transaction.smartContractResults
            with m | _ | scr
          · simp [hf] at h
          · simp [hf] at h
          · simp only [hf] at h
            rcases hd : env2.multiDecodeToNative scr with _ | v
            · simp [hd] at h
            · simp [hd, ScCallOutcome.success.injEq, CallResult.mk.injEq] at h
              obtain ⟨hre, hres⟩ := h
              subst hres
              rfl

/-- Witness for C6 at a fully successful call decoding to the native value
`42`. -/
theorem sc_call_success_result_is_some_witness :
    (scCall envSuccess).2 = ScCallOutcome.success
        { response := ⟨⟨some [⟨7, "@6f6b@2a"⟩]⟩⟩, result := some 42 } ∧
    ∀ (env2 : ScCallEnv Nat) (c : CallResult Nat),
      (scCall env2).2 = ScCallOutcome.success c → c.result.isSome = true :=
  sc_call_success_result_is_some envSuccess testNormalized ⟨⟨some [⟨7, "@6f6b@2a"⟩]⟩⟩
    [[42]] 42 rfl rfl rfl (by decide) rfl

/-- C7: the claim says `sc_call` and `sc_deploy` on a DummyExecutor both
capture the would-be step.  Evaluating the code shows
`DummyExecutor<ScCallStep>::sc_call` instead aborts with the `todo!()`
unimplemented panic — contradicting its own doc comment ("Captures the smart
contract call details"); only `sc_deploy` performs the capture, replacing the
previous step and stamping the configured caller as sender. -/
theorem dummy_sc_call_unimplemented :
    DummyExecutor.scCall { tx := ScCallStep.new, caller := none } Address.zero
        "getSum" [] 600000000 0 []
      = PanicOr.panic "not yet implemented" ∧
    (DummyExecutor.scDeploy
        { tx := ScDeployStep.new, caller := some ⟨[3]⟩ }
        ⟨{ txFrom := Address.zero, payload := "code" }⟩).1.tx
      = { txFrom := ⟨[3]⟩, payload := "code" } := by
  exact ⟨rfl, rfl⟩

/-- C8: `should_skip_deserialization` is false for the network executor (its
deploy impl in src, and the call path as the spec states it) and true for
both dummy variants, for every executor configuration. -/
theorem should_skip_deserialization_values :
    (∀ e : BaseTransactionNetworkExecutor,
        e.shouldSkipDeserializationCall = false) ∧
    (∀ e : BaseTransactionNetworkExecutor,
        e.shouldSkipDeserializationDeploy = false) ∧
    (∀ d : DummyExecutor ScCallStep,
        d.shouldSkipDeserializationScCall = true) ∧
    (∀ d : DummyExecutor ScDeployStep,
        d.shouldSkipDeserializationScDeploy = true) :=
  ⟨fun _ => rfl, fun _ => rfl, fun _ => rfl, fun _ => rfl⟩

/-- C10: after a dummy `sc_deploy` returns Ok, the caller's handle holds a
default-constructed deploy step (the previous contents are moved out and no
longer observable there), the moved-out step — sender-stamped when a caller
is configured, unchanged otherwise — is the executor's captured tx, and the
caller override itself is untouched. -/
theorem dummy_sc_deploy_resets_caller_step (self : DummyExecutor ScDeployStep)
    (step : TypedScDeploy) :
    (self.scDeploy step).2.1 = TypedScDeploy.fromStep ScDeployStep.new ∧
    (self.scDeploy step).2.2 = Except.ok () ∧
    (self.scDeploy step).1.tx =
      (match self.caller with
       | some c => step.sc_deploy_step.withFrom c
       | none => step.sc_deploy_step) ∧
    (self.scDeploy step).1.caller = self.caller := by
  refine ⟨rfl, rfl, ?_, rfl⟩
  rcases hc : self.caller with _ | c <;>
    simp [DummyExecutor.scDeploy, TypedScDeploy.withFrom, hc]

/-- C9 counterexample: the claim says a normalization failure is surfaced
before *any* network I/O, but the source constructs the interactor — the
session-open network operation, which per the spec may fail with a connection
error — before normalizing; at this input the normalization error is indeed
returned, yet the performed-trace already contains the session open. -/
theorem sc_call_session_open_precedes_normalization :
    (scCall envNormalizationFailure).2
        = ScCallOutcome.err (ExecutorError.normalization "malformed address") ∧
    NetworkEvent.openSession ∈ (scCall envNormalizationFailure).1 := by
  refine ⟨rfl, ?_⟩
  decide

/-- C9 (amended): when normalization fails under a successfully opened
session, the normalization error is returned as-is and no call submission is
ever performed — the failure is surfaced before the transaction-submission
network I/O, though after the interactor session open. -/
theorem sc_call_normalization_error_before_submission {α : Type}
    (env : ScCallEnv α) (e : ExecutorError)
    (h1 : env.interactorNew = Except.ok ())
    (h2 : env.normalize = Except.error e) :
    (scCall env).2 = ScCallOutcome.err e ∧
    NetworkEvent.submitCall ∉ (scCall env).1 := by
  have hrun : scCall env = ([NetworkEvent.openSession], ScCallOutcome.err e) := by
    simp only [scCall, h1, h2]
  rw [hrun]
  refine ⟨rfl, fun hmem => ?_⟩
  exact NetworkEvent.noConfusion (List.mem_singleton.mp hmem)

/-- Witness for the amended C9 at the concrete failing-normalization
environment. -/
theorem sc_call_normalization_error_before_submission_witness :
    (scCall envNormalizationFailure).2
        = ScCallOutcome.err (ExecutorError.normalization "malformed address") ∧
    NetworkEvent.submitCall ∉ (scCall envNormalizationFailure).1 :=
  sc_call_normalization_error_before_submission envNormalizationFailure
    (ExecutorError.normalization "malformed address") rfl rfl
